import Mathlib

/-!
Verification development for the save-to-mega cloud function
(src/main.py). The single handler upload_file_by_url_to_mega and its
memoized client initializer _get_mega_client are shallowly embedded:
external effects (HTTP, blob store, Mega API, error reporting) are
supplied by an explicit environment, their invocations are recorded in a
trace, the process-wide memoization slot is threaded as explicit state,
and the local filesystem is an association list from path to content.
-/

set_option maxHeartbeats 1000000

namespace SaveToMega

/-- Local filesystem model: association list from path to file content. -/
abbrev Fs := List (String × String)

/-- Store content at a path, replacing any previous entry (file write). -/
def fsSet (fs : Fs) (p c : String) : Fs :=
  (p, c) :: fs.filter (fun e => e.1 != p)

/-- Remove the entry at a path (file deletion). -/
def fsRemove (fs : Fs) (p : String) : Fs :=
  fs.filter (fun e => e.1 != p)

/-- Content stored at a path, if any. -/
def fsLookup (fs : Fs) (p : String) : Option String :=
  (fs.find? (fun e => e.1 == p)).map (fun e => e.2)

/-- Scan the characters, restarting the accumulator at every slash. -/
def basenameChars : List Char → List Char → List Char
  | [], acc => acc.reverse
  | c :: rest, acc => if c = '/' then basenameChars rest [] else basenameChars rest (c :: acc)

/-- Models os.path.basename for POSIX paths: the portion of the string
after the last slash. -/
def basename (p : String) : String :=
  String.mk (basenameChars p.toList [])

/-- Characters allowed in a URL scheme after the leading letter, as in
urllib.parse. -/
def isSchemeChar (c : Char) : Bool :=
  c.isAlphanum || c == '+' || c == '-' || c == '.'

/-- Drop a leading "scheme:" from the character list when the portion
before the first colon is a valid scheme, as urllib.parse.urlparse does. -/
def stripScheme (s : List Char) : List Char :=
  let pre := s.takeWhile (fun c => c != ':')
  match pre with
  | [] => s
  | c0 :: rest =>
    if pre.length < s.length && c0.isAlpha && rest.all isSchemeChar then
      s.drop (pre.length + 1)
    else s

/-- Drop a leading "//netloc" component, as urllib.parse.urlparse does. -/
def stripNetloc (s : List Char) : List Char :=
  match s with
  | '/' :: '/' :: rest => rest.dropWhile (fun c => c != '/' && c != '?' && c != '#')
  | _ => s

/-- Models urllib.parse.urlparse(url).path: the path component of the
URL, with scheme, network location, query and fragment removed. -/
def urlparse_path (url : String) : String :=
  String.mk ((stripNetloc (stripScheme url.toList)).takeWhile (fun c => c != '?' && c != '#'))

/-- The trigger event (main.py line 82). The field models indexing
event with key "data": none means the key is absent (indexing raises),
some none means the value is None, some (some s) is a present string. -/
structure Event where
  data? : Option (Option String)
deriving Repr, DecidableEq

/-- The decoded JSON payload: url and folder fields, each possibly
absent (main.py lines 121 and 126). -/
structure Payload where
  url? : Option String
  folder? : Option String
deriving Repr, DecidableEq

/-- An HTTP response as used by main.py lines 132 to 144. -/
structure HttpResp where
  status_code : Nat
  content : String
deriving Repr, DecidableEq

/-- Credentials loaded from the configuration blob (main.py line 43). -/
structure Creds where
  username : String
  password : String
deriving Repr, DecidableEq

/-- A Mega API node as returned by find: the code uses only the first
tuple component (the handle), at main.py line 169. -/
structure MegaNode where
  handle : String
deriving Repr, DecidableEq

/-- The Mega client object. Mega() constructs it not logged in; login
mutates it to logged in (main.py lines 35 and 43). -/
structure Mega where
  loggedIn : Bool
deriving Repr, DecidableEq

/-- The process-wide module state: the _MEGA_CLIENT memoization slot
(main.py line 15). -/
structure ProcState where
  megaClient : Option Mega
deriving Repr, DecidableEq

/-- Externally visible calls made during one invocation, in order. -/
inductive Action where
  | report
  | reportException
  | httpGet (url : String)
  | varsLoad
  | loginAttempt
  | findPath (name : String)
  | createFolder (name : String)
  | find (name : String)
  | upload (path : String) (dest : Option String)
  | rename (target : Option MegaNode) (newName : String)
deriving Repr, DecidableEq

/-- The environment of external effects: deterministic oracles for the
library and service calls the handler makes. decodeJson models the
composite json.loads(base64.b64decode(s).decode("utf-8")) of line 114,
none meaning that the composite raises. httpGet models requests.get,
error meaning a transport-level exception. tmpName is the name the
NamedTemporaryFile facility assigns. varsDict models _get_vars_dict
(raises or returns credentials). The remaining fields model the Mega
API calls, error meaning the call raises. -/
structure Env where
  decodeJson : String → Option Payload
  httpGet : String → Except Unit HttpResp
  tmpName : String
  varsDict : Except Unit Creds
  loginOk : String → String → Bool
  find_path_descriptor : String → Except Unit (Option String)
  create_folder : String → Except Unit Unit
  find : String → Except Unit (Option MegaNode)
  upload : String → Option String → Except Unit Unit
  rename : Option MegaNode → String → Except Unit Unit

/-- Why _get_mega_client raised, when it did. -/
inductive MegaInitErr where
  | varsFailed
  | loginFailed
deriving Repr, DecidableEq

/-- Models _get_mega_client (main.py lines 31 to 49). If the slot is
set, return the cached client. Otherwise the slot is first assigned a
fresh, not yet logged-in Mega() (line 35); then the credentials are
loaded, a failure being logged and re-raised (lines 36 to 40); then
login is attempted, a failure again being logged and re-raised (lines
42 to 47). Only the raised-or-returned result, the slot state and the
external calls are modelled. -/
def _get_mega_client (env : Env) (st : ProcState) :
    Except MegaInitErr Mega × ProcState × List Action :=
  match st.megaClient with
  | some c => (Except.ok c, st, [])
  | none =>
    let st1 : ProcState := ⟨some ⟨false⟩⟩
    match env.varsDict with
    | Except.error _ => (Except.error MegaInitErr.varsFailed, st1, [Action.varsLoad])
    | Except.ok creds =>
      if env.loginOk creds.username creds.password then
        (Except.ok ⟨true⟩, ⟨some ⟨true⟩⟩, [Action.varsLoad, Action.loginAttempt])
      else
        (Except.error MegaInitErr.loginFailed, st1, [Action.varsLoad, Action.loginAttempt])

/-- Models lines 105 to 110: the second extraction data_str =
event["data"], inside its own try block. The error arm is the except
branch of lines 107 to 110. -/
def secondDataExtraction (ev : Event) : Except Unit String :=
  match ev.data? with
  | some (some s) => Except.ok s
  | _ => Except.error ()

/-- Models lines 134 to 138: tempfile.NamedTemporaryFile("wb") creates
a file, the response body is written to it, its name is retained as
path, and close deletes the file because delete defaults to True.
Returns the filesystem afterwards and the retained path. -/
def downloadStep (fs : Fs) (tmpName content : String) : Fs × String :=
  let fsOpened := fsSet fs tmpName ""
  let fsWritten := fsSet fsOpened tmpName content
  let fsClosed := fsRemove fsWritten tmpName
  (fsClosed, tmpName)

/-- Outcome of the folder try block of lines 147 to 164. -/
inductive FolderOutcome where
  | caught
  | resolved (folder : Option MegaNode)
deriving Repr, DecidableEq

/-- Models the folder try block (main.py lines 147 to 164). When the
payload has a folder, the client is fetched and
find_path_descriptor is called; a None descriptor leads to
create_folder then find, a present one to find directly; any raise in
the block is caught, reported, and yields outcome caught (return 1).
Each Mega call goes through _get_mega_client again, as in the source. -/
def folder_block (env : Env) (proc : ProcState) (data : Payload) :
    FolderOutcome × ProcState × List Action :=
  match data.folder? with
  | none => (FolderOutcome.resolved none, proc, [])
  | some f =>
    match _get_mega_client env proc with
    | (Except.error _, p1, tr) => (FolderOutcome.caught, p1, tr ++ [Action.reportException])
    | (Except.ok _, p1, tr) =>
      match env.find_path_descriptor f with
      | Except.error _ =>
        (FolderOutcome.caught, p1, tr ++ [Action.findPath f, Action.reportException])
      | Except.ok none =>
        match _get_mega_client env p1 with
        | (Except.error _, p2, tr2) =>
          (FolderOutcome.caught, p2, tr ++ [Action.findPath f] ++ tr2 ++ [Action.reportException])
        | (Except.ok _, p2, tr2) =>
          match env.create_folder f with
          | Except.error _ =>
            (FolderOutcome.caught, p2,
              tr ++ [Action.findPath f] ++ tr2 ++ [Action.createFolder f, Action.reportException])
          | Except.ok _ =>
            match _get_mega_client env p2 with
            | (Except.error _, p3, tr3) =>
              (FolderOutcome.caught, p3,
                tr ++ [Action.findPath f] ++ tr2 ++ [Action.createFolder f] ++ tr3
                  ++ [Action.reportException])
            | (Except.ok _, p3, tr3) =>
              match env.find f with
              | Except.error _ =>
                (FolderOutcome.caught, p3,
                  tr ++ [Action.findPath f] ++ tr2 ++ [Action.createFolder f] ++ tr3
                    ++ [Action.find f, Action.reportException])
              | Except.ok fo =>
                (FolderOutcome.resolved fo, p3,
                  tr ++ [Action.findPath f] ++ tr2 ++ [Action.createFolder f] ++ tr3
                    ++ [Action.find f])
      | Except.ok (some _) =>
        match _get_mega_client env p1 with
        | (Except.error _, p2, tr2) =>
          (FolderOutcome.caught, p2,
            tr ++ [Action.findPath f] ++ tr2 ++ [Action.reportException])
        | (Except.ok _, p2, tr2) =>
          match env.find f with
          | Except.error _ =>
            (FolderOutcome.caught, p2,
              tr ++ [Action.findPath f] ++ tr2 ++ [Action.find f, Action.reportException])
          | Except.ok fo =>
            (FolderOutcome.resolved fo, p2,
              tr ++ [Action.findPath f] ++ tr2 ++ [Action.find f])

/-- Outcome of the upload try block of lines 166 to 175. -/
inductive UploadOutcome where
  | caught
  | sent
deriving Repr, DecidableEq

/-- Models the upload try block (main.py lines 166 to 175): if a folder
was resolved (truthy), upload into folder[0], else upload to root; any
raise is caught, reported, and yields caught (return 1). -/
def upload_block (env : Env) (proc : ProcState) (path : String) (folder : Option MegaNode) :
    UploadOutcome × ProcState × List Action :=
  match _get_mega_client env proc with
  | (Except.error _, p1, tr) => (UploadOutcome.caught, p1, tr ++ [Action.reportException])
  | (Except.ok _, p1, tr) =>
    match folder with
    | some node =>
      match env.upload path (some node.handle) with
      | Except.error _ =>
        (UploadOutcome.caught, p1,
          tr ++ [Action.upload path (some node.handle), Action.reportException])
      | Except.ok _ =>
        (UploadOutcome.sent, p1, tr ++ [Action.upload path (some node.handle)])
    | none =>
      match env.upload path none with
      | Except.error _ =>
        (UploadOutcome.caught, p1, tr ++ [Action.upload path none, Action.reportException])
      | Except.ok _ =>
        (UploadOutcome.sent, p1, tr ++ [Action.upload path none])

/-- An exception escaping upload_file_by_url_to_mega to its caller. -/
inductive Exc where
  | transport
  | megaInitAtRename
  | findAtRename
  | renameFailed
deriving Repr, DecidableEq

/-- Models the unguarded rename step (main.py lines 177 to 179): find
the uploaded entry by the basename of the temporary path, then rename
it to the URL-derived name. No try block guards these lines, so any
raise escapes the handler. -/
def rename_block (env : Env) (proc : ProcState) (path name : String) :
    Except Exc Unit × ProcState × List Action :=
  match _get_mega_client env proc with
  | (Except.error _, p1, tr) => (Except.error Exc.megaInitAtRename, p1, tr)
  | (Except.ok _, p1, tr) =>
    match env.find (basename path) with
    | Except.error _ => (Except.error Exc.findAtRename, p1, tr ++ [Action.find (basename path)])
    | Except.ok file_on_mega =>
      match _get_mega_client env p1 with
      | (Except.error _, p2, tr2) =>
        (Except.error Exc.megaInitAtRename, p2, tr ++ [Action.find (basename path)] ++ tr2)
      | (Except.ok _, p2, tr2) =>
        match env.rename file_on_mega name with
        | Except.error _ =>
          (Except.error Exc.renameFailed, p2,
            tr ++ [Action.find (basename path)] ++ tr2 ++ [Action.rename file_on_mega name])
        | Except.ok _ =>
          (Except.ok (), p2,
            tr ++ [Action.find (basename path)] ++ tr2 ++ [Action.rename file_on_mega name])

/-- Full output of one invocation: the returned value or escaped
exception, the final filesystem, the final process state, and the trace
of external calls. -/
structure WfOut where
  result : Except Exc Nat
  fs : Fs
  proc : ProcState
  trace : List Action
deriving Repr

/-- Models upload_file_by_url_to_mega (main.py lines 82 to 181), the
whole handler: event validation (92 to 103), the guarded second
extraction (105 to 110), decode and parse (113 to 118), field checks
(120 to 128), name derivation (131), the unguarded HTTP GET (132), the
download to a temporary file (133 to 144), the folder try block (147 to
164), the upload try block (166 to 175), and the unguarded rename (177
to 179). -/
def upload_file_by_url_to_mega (env : Env) (proc : ProcState) (fs : Fs) (event : Event) :
    WfOut :=
  match event.data? with
  | none => ⟨Except.ok 1, fs, proc, [Action.reportException]⟩
  | some none => ⟨Except.ok 1, fs, proc, [Action.report]⟩
  | some (some _) =>
    match secondDataExtraction event with
    | Except.error _ => ⟨Except.ok 1, fs, proc, [Action.reportException]⟩
    | Except.ok data_str =>
      match env.decodeJson data_str with
      | none => ⟨Except.ok 1, fs, proc, [Action.reportException]⟩
      | some data =>
        match data.url? with
        | none => ⟨Except.ok 1, fs, proc, [Action.report]⟩
        | some url =>
          let name := basename (urlparse_path url)
          match env.httpGet url with
          | Except.error _ => ⟨Except.error Exc.transport, fs, proc, [Action.httpGet url]⟩
          | Except.ok resp =>
            if resp.status_code = 200 then
              let dl := downloadStep fs env.tmpName resp.content
              match folder_block env proc data with
              | (FolderOutcome.caught, p1, tr1) =>
                ⟨Except.ok 1, dl.1, p1, Action.httpGet url :: tr1⟩
              | (FolderOutcome.resolved folder, p1, tr1) =>
                match upload_block env p1 dl.2 folder with
                | (UploadOutcome.caught, p2, tr2) =>
                  ⟨Except.ok 1, dl.1, p2, Action.httpGet url :: (tr1 ++ tr2)⟩
                | (UploadOutcome.sent, p2, tr2) =>
                  match rename_block env p2 dl.2 name with
                  | (Except.error e, p3, tr3) =>
                    ⟨Except.error e, dl.1, p3, Action.httpGet url :: (tr1 ++ tr2 ++ tr3)⟩
                  | (Except.ok _, p3, tr3) =>
                    ⟨Except.ok 0, dl.1, p3, Action.httpGet url :: (tr1 ++ tr2 ++ tr3)⟩
            else
              ⟨Except.ok 1, fs, proc, [Action.httpGet url, Action.report]⟩

/-- Is an action a report to the error-tracking service. -/
def isReportAction (a : Action) : Bool :=
  match a with
  | Action.report => true
  | Action.reportException => true
  | _ => false

/-- Number of error reports emitted in a trace. -/
def reportCount (tr : List Action) : Nat := tr.countP isReportAction

/-- Is an action an outbound HTTP GET. -/
def isHttpGetAction (a : Action) : Bool :=
  match a with
  | Action.httpGet _ => true
  | _ => false

/-- The invocation result values and escaped exceptions the handler can
produce: either the integer 0 or 1, or one of the raises at the
unguarded HTTP GET or rename step. -/
def resultWithinContract (r : Except Exc Nat) : Prop :=
  match r with
  | Except.ok n => n = 0 ∨ n = 1
  | Except.error e => e = Exc.transport ∨ e = Exc.findAtRename ∨ e = Exc.renameFailed

/-- A concrete URL, as in the doctest of main.py. -/
def urlA : String := "https://i.redd.it/akkzmel1xpf41.jpg"

/-- A concrete decoded payload with both fields present. -/
def payloadA : Payload := ⟨some urlA, some "mtga-promo-cards"⟩

/-- A concrete environment in which every external call succeeds: the
payload decodes, the download returns 200, the folder path descriptor
is present, find returns a node, upload and rename succeed. -/
def envA : Env :=
  ⟨fun s => if s == "B64DATA" then some payloadA else none,
   fun u => if u == urlA then Except.ok ⟨200, "JPEGBYTES"⟩ else Except.error (),
   "/tmp/tmpb2l9x4",
   Except.ok ⟨"user", "pw"⟩,
   fun _ _ => true,
   fun _ => Except.ok (some "d0"),
   fun _ => Except.ok (),
   fun _ => Except.ok (some ⟨"h1"⟩),
   fun _ _ => Except.ok (),
   fun _ _ => Except.ok ()⟩

/-- A concrete event whose data decodes to payloadA under envA. -/
def evA : Event := ⟨some (some "B64DATA")⟩

/-- Like envA but the payload decodes to one without a url field. -/
def envNoUrl : Env :=
  ⟨fun s => if s == "NOURL" then some ⟨none, none⟩ else none,
   envA.httpGet, envA.tmpName, envA.varsDict, envA.loginOk, envA.find_path_descriptor,
   envA.create_folder, envA.find, envA.upload, envA.rename⟩

/-- Like envA but every HTTP GET raises a transport-level exception. -/
def envTransport : Env :=
  ⟨envA.decodeJson, fun _ => Except.error (), envA.tmpName, envA.varsDict, envA.loginOk,
   envA.find_path_descriptor, envA.create_folder, envA.find, envA.upload, envA.rename⟩

/-- Like envA but loading the credential configuration blob fails. -/
def envVarsFail : Env :=
  ⟨envA.decodeJson, envA.httpGet, envA.tmpName, Except.error (), envA.loginOk,
   envA.find_path_descriptor, envA.create_folder, envA.find, envA.upload, envA.rename⟩

/-- Like envA but the Mega login fails. -/
def envLoginFail : Env :=
  ⟨envA.decodeJson, envA.httpGet, envA.tmpName, envA.varsDict, fun _ _ => false,
   envA.find_path_descriptor, envA.create_folder, envA.find, envA.upload, envA.rename⟩

/-- Like envA but the folder path descriptor is absent and the
name-based find of the folder also returns nothing, while any other
find (the uploaded file) returns a node. -/
def envFolderFalsy : Env :=
  ⟨envA.decodeJson, envA.httpGet, envA.tmpName, envA.varsDict, envA.loginOk,
   fun _ => Except.ok none,
   envA.create_folder,
   fun n => if n == "mtga-promo-cards" then Except.ok none else Except.ok (some ⟨"hf"⟩),
   envA.upload, envA.rename⟩

/-- After deleting a path, nothing is stored at it. -/
theorem fsLookup_fsRemove (fs : Fs) (p : String) : fsLookup (fsRemove fs p) p = none := by
  have h : (fsRemove fs p).find? (fun e => e.1 == p) = none := by
    rw [List.find?_eq_none]
    intro x hx
    have hm := List.mem_filter.mp hx
    simpa using hm.2
  simp [fsLookup, h]

/-- A set memoization slot makes _get_mega_client return the cached
client with no external calls. -/
theorem get_client_cached (env : Env) (proc : ProcState) (c : Mega)
    (h : proc.megaClient = some c) : _get_mega_client env proc = (Except.ok c, proc, []) := by
  unfold _get_mega_client
  rw [h]

/-- When _get_mega_client returns a client, the slot in the resulting
state holds that client. -/
theorem get_client_ok_slot (env : Env) (proc p : ProcState) (c : Mega) (tr : List Action)
    (h : _get_mega_client env proc = (Except.ok c, p, tr)) : p.megaClient = some c := by
  rcases proc with ⟨mc⟩
  rcases mc with _ | c0
  · rcases hv : env.varsDict with _ | creds
    · simp [_get_mega_client, hv] at h
    · by_cases hl : env.loginOk creds.username creds.password
      · simp [_get_mega_client, hv, hl] at h
        rcases h with ⟨h1, h2, h3⟩
        rw [← h2, ← h1]
      · simp [_get_mega_client, hv, hl] at h
  · simp [_get_mega_client] at h
    rcases h with ⟨h1, h2, h3⟩
    rw [← h2, ← h1]

/-- With an empty slot and a failing credential load, _get_mega_client
re-raises, leaving a fresh unauthenticated client in the slot. -/
theorem get_client_vars_error (env : Env) (proc : ProcState)
    (hslot : proc.megaClient = none) (hv : env.varsDict = Except.error ()) :
    _get_mega_client env proc =
      (Except.error MegaInitErr.varsFailed, ⟨some ⟨false⟩⟩, [Action.varsLoad]) := by
  unfold _get_mega_client
  rw [hslot, hv]

/-- A sent outcome of the upload block leaves a client in the slot. -/
theorem upload_block_sent_slot (env : Env) (proc : ProcState) (path : String)
    (folder : Option MegaNode) (p2 : ProcState) (tr : List Action)
    (h : upload_block env proc path folder = (UploadOutcome.sent, p2, tr)) :
    ∃ c, p2.megaClient = some c := by
  unfold upload_block at h
  rcases hg : _get_mega_client env proc with ⟨r, p1, tr1⟩
  rw [hg] at h
  rcases r with _ | c
  · simp at h
  · have hp1 : p1.megaClient = some c := get_client_ok_slot env proc p1 c tr1 hg
    refine ⟨c, ?_⟩
    rcases folder with _ | node
    · simp at h
      rcases hu : env.upload path none with _ | _ <;> rw [hu] at h <;> simp at h
      rw [← h.1]
      exact hp1
    · simp at h
      rcases hu : env.upload path (some node.handle) with _ | _ <;> rw [hu] at h <;> simp at h
      rw [← h.1]
      exact hp1

/-- With a cached client, an exception escaping the rename step is a
find or rename failure, never a client initialization failure. -/
theorem rename_block_error_shape (env : Env) (proc : ProcState) (path name : String)
    (c : Mega) (e : Exc) (p3 : ProcState) (tr : List Action)
    (hc : proc.megaClient = some c)
    (h : rename_block env proc path name = (Except.error e, p3, tr)) :
    e = Exc.findAtRename ∨ e = Exc.renameFailed := by
  unfold rename_block at h
  rw [get_client_cached env proc c hc] at h
  simp only [Prod.mk.eta] at h
  rcases hf : env.find (basename path) with _ | fom <;> rw [hf] at h <;> simp at h
  · left
    exact h.1.symm
  · rw [get_client_cached env proc c hc] at h
    simp only [Prod.mk.eta] at h
    rcases hr : env.rename fom name with _ | _ <;> rw [hr] at h <;> simp at h
    right
    exact h.1.symm

/-- With a present, non-null data field, the guarded second extraction
returns that string. -/
theorem secondDataExtraction_some (ev : Event) (s : String) (h : ev.data? = some (some s)) :
    secondDataExtraction ev = Except.ok s := by
  simp [secondDataExtraction, h]

/-- C9: whenever control reaches the second extraction of the event
data field after the initial validation block succeeded, the extraction
cannot raise: the except branch guarding it is unreachable, and the
extraction returns the data string. -/
theorem C9_second_extraction_cannot_raise (ev : Event) (s : String)
    (h : ev.data? = some (some s)) : secondDataExtraction ev = Except.ok s := by
  simp [secondDataExtraction, h]

/-- C9 witness at a concrete event. -/
theorem C9_second_extraction_cannot_raise_witness :
    (Event.mk (some (some "B64DATA"))).data? = some (some "B64DATA") ∧
    secondDataExtraction (Event.mk (some (some "B64DATA"))) = Except.ok "B64DATA" :=
  ⟨rfl, C9_second_extraction_cannot_raise (Event.mk (some (some "B64DATA"))) "B64DATA" rfl⟩

/-- C7: for every event lacking a data field or whose data field is
null, the workflow returns 1 and emits exactly one report to the
error-tracking service. -/
theorem C7_missing_data_returns_one_single_report (env : Env) (proc : ProcState) (fs : Fs)
    (ev : Event) (h : ev.data? = none ∨ ev.data? = some none) :
    (upload_file_by_url_to_mega env proc fs ev).result = Except.ok 1 ∧
    reportCount (upload_file_by_url_to_mega env proc fs ev).trace = 1 := by
  rcases h with h | h <;>
    simp [upload_file_by_url_to_mega, h, reportCount, List.countP, List.countP.go, isReportAction]

/-- C7 witness at a concrete event with an absent data field. -/
theorem C7_missing_data_returns_one_single_report_witness :
    ((Event.mk none).data? = none ∨ (Event.mk none).data? = some none) ∧
    ((upload_file_by_url_to_mega envA ⟨none⟩ [] (Event.mk none)).result = Except.ok 1 ∧
      reportCount (upload_file_by_url_to_mega envA ⟨none⟩ [] (Event.mk none)).trace = 1) :=
  ⟨Or.inl rfl,
    C7_missing_data_returns_one_single_report envA ⟨none⟩ [] (Event.mk none) (Or.inl rfl)⟩

/-- C8: for every decoded payload lacking a url field, the workflow
returns 1 and its trace contains no HTTP GET: no network download call
is attempted. -/
theorem C8_missing_url_no_network_call (env : Env) (proc : ProcState) (fs : Fs) (ev : Event)
    (s : String) (data : Payload) (hd : ev.data? = some (some s))
    (hj : env.decodeJson s = some data) (hu : data.url? = none) :
    (upload_file_by_url_to_mega env proc fs ev).result = Except.ok 1 ∧
    (upload_file_by_url_to_mega env proc fs ev).trace.countP isHttpGetAction = 0 := by
  have h2 := secondDataExtraction_some ev s hd
  simp [upload_file_by_url_to_mega, hd, h2, hj, hu, List.countP, List.countP.go, isHttpGetAction]

/-- C8 witness at a concrete payload lacking a url. -/
theorem C8_missing_url_no_network_call_witness :
    (Event.mk (some (some "NOURL"))).data? = some (some "NOURL") ∧
    envNoUrl.decodeJson "NOURL" = some (Payload.mk none none) ∧
    (Payload.mk none none).url? = none ∧
    ((upload_file_by_url_to_mega envNoUrl ⟨none⟩ [] (Event.mk (some (some "NOURL")))).result =
        Except.ok 1 ∧
      (upload_file_by_url_to_mega envNoUrl ⟨none⟩ []
          (Event.mk (some (some "NOURL")))).trace.countP isHttpGetAction = 0) :=
  ⟨rfl, by decide, rfl,
    C8_missing_url_no_network_call envNoUrl ⟨none⟩ [] (Event.mk (some (some "NOURL"))) "NOURL"
      (Payload.mk none none) rfl (by decide) rfl⟩

/-- C1: the claim that the downloaded body stays stored at the retained
temporary path fails on the code: NamedTemporaryFile is opened with the
default delete=True and closed right after the write, which deletes the
file, so after the download step nothing at all is stored at the
retained path. -/
theorem C1_downloaded_content_not_retained (env : Env) (proc : ProcState) (fs : Fs)
    (ev : Event) (s : String) (data : Payload) (url : String) (resp : HttpResp)
    (hd : ev.data? = some (some s)) (hj : env.decodeJson s = some data)
    (hu : data.url? = some url) (hg : env.httpGet url = Except.ok resp)
    (hs : resp.status_code = 200) :
    fsLookup (upload_file_by_url_to_mega env proc fs ev).fs env.tmpName = none := by
  have h2 := secondDataExtraction_some ev s hd
  simp only [upload_file_by_url_to_mega, hd, h2, hj, hu, hg, hs, if_true]
  split <;> (try split) <;> (try split) <;> simp [downloadStep, fsLookup_fsRemove]

/-- C2 amended: every normal return of the workflow is 0 or 1, and the
only exceptions that can escape it are the unguarded transport raise of
the HTTP GET and the unguarded find or rename raises of the rename
step; in particular a client-initialization failure never escapes. -/
theorem C2_result_contract (env : Env) (proc : ProcState) (fs : Fs) (ev : Event) :
    resultWithinContract (upload_file_by_url_to_mega env proc fs ev).result := by
  rcases hd : ev.data? with _ | od
  · simp [upload_file_by_url_to_mega, hd, resultWithinContract]
  rcases od with _ | s
  · simp [upload_file_by_url_to_mega, hd, resultWithinContract]
  have h2 := secondDataExtraction_some ev s hd
  rcases hj : env.decodeJson s with _ | data
  · simp [upload_file_by_url_to_mega, hd, h2, hj, resultWithinContract]
  rcases hu : data.url? with _ | url
  · simp [upload_file_by_url_to_mega, hd, h2, hj, hu, resultWithinContract]
  rcases hg : env.httpGet url with _ | resp
  · simp [upload_file_by_url_to_mega, hd, h2, hj, hu, hg, resultWithinContract]
  by_cases hs : resp.status_code = 200
  · rcases hfb : folder_block env proc data with ⟨fo, p1, tr1⟩
    rcases fo with _ | folder
    · simp [upload_file_by_url_to_mega, hd, h2, hj, hu, hg, hs, hfb, resultWithinContract]
    · rcases hub : upload_block env p1 (downloadStep fs env.tmpName resp.content).2 folder with
        ⟨uo, p2, tr2⟩
      rcases uo with _ | _
      · simp [upload_file_by_url_to_mega, hd, h2, hj, hu, hg, hs, hfb, hub,
          resultWithinContract]
      · rcases hrn : rename_block env p2 (downloadStep fs env.tmpName resp.content).2
            (basename (urlparse_path url)) with ⟨rr, p3, tr3⟩
        rcases rr with e | u
        · rcases upload_block_sent_slot env p1 (downloadStep fs env.tmpName resp.content).2
            folder p2 tr2 hub with ⟨c, hc⟩
          have hshape := rename_block_error_shape env p2
            (downloadStep fs env.tmpName resp.content).2 (basename (urlparse_path url))
            c e p3 tr3 hc hrn
          simp [upload_file_by_url_to_mega, hd, h2, hj, hu, hg, hs, hfb, hub, hrn,
            resultWithinContract]
          tauto
        · simp [upload_file_by_url_to_mega, hd, h2, hj, hu, hg, hs, hfb, hub, hrn,
            resultWithinContract]
  · simp [upload_file_by_url_to_mega, hd, h2, hj, hu, hg, hs, resultWithinContract]

/-- C1 witness: at a concrete fully successful invocation, nothing is
stored at the retained temporary path afterwards. -/
theorem C1_downloaded_content_not_retained_witness :
    evA.data? = some (some "B64DATA") ∧
    envA.decodeJson "B64DATA" = some payloadA ∧
    payloadA.url? = some urlA ∧
    envA.httpGet urlA = Except.ok ⟨200, "JPEGBYTES"⟩ ∧
    (⟨200, "JPEGBYTES"⟩ : HttpResp).status_code = 200 ∧
    fsLookup (upload_file_by_url_to_mega envA ⟨none⟩ [] evA).fs envA.tmpName = none :=
  ⟨rfl, rfl, rfl, rfl, rfl,
    C1_downloaded_content_not_retained envA ⟨none⟩ [] evA "B64DATA" payloadA urlA
      ⟨200, "JPEGBYTES"⟩ rfl rfl rfl rfl rfl⟩

/-- C2 counterexample: with a transport-level failure of the HTTP GET,
a download failure of the kind the claim covers, the workflow raises
the exception outward instead of returning 1. -/
theorem C2_counterexample_transport_raises :
    (upload_file_by_url_to_mega envTransport ⟨none⟩ [] evA).result =
      Except.error Exc.transport ∧
    (upload_file_by_url_to_mega envTransport ⟨none⟩ [] evA).result ≠ Except.ok 1 := by
  constructor
  · rfl
  · intro h
    rw [show (upload_file_by_url_to_mega envTransport ⟨none⟩ [] evA).result =
        Except.error Exc.transport from rfl] at h
    exact Except.noConfusion h

/-- C3 counterexample: with an empty slot and a failing login, the
memoization slot afterwards holds an unauthenticated client, not none
as the claim states. -/
theorem C3_counterexample_failed_login_sets_slot :
    (_get_mega_client envLoginFail ⟨none⟩).1 = Except.error MegaInitErr.loginFailed ∧
    (_get_mega_client envLoginFail ⟨none⟩).2.1.megaClient = some ⟨false⟩ :=
  ⟨rfl, rfl⟩

/-- C3 amended: a failed login re-raises but leaves the fresh
unauthenticated client cached in the slot, and the next invocation
returns that cached client with no fresh credential load or login
attempt (its trace of external calls is empty). -/
theorem C3_failed_login_caches_unauth_client (env : Env) (proc : ProcState) (creds : Creds)
    (hslot : proc.megaClient = none) (hv : env.varsDict = Except.ok creds)
    (hl : env.loginOk creds.username creds.password = false) :
    _get_mega_client env proc =
      (Except.error MegaInitErr.loginFailed, ⟨some ⟨false⟩⟩,
        [Action.varsLoad, Action.loginAttempt]) ∧
    _get_mega_client env ⟨some ⟨false⟩⟩ = (Except.ok ⟨false⟩, ⟨some ⟨false⟩⟩, []) := by
  constructor
  · unfold _get_mega_client
    rw [hslot, hv]
    simp [hl]
  · rfl

/-- C3 amended witness at a concrete failing-login environment. -/
theorem C3_failed_login_caches_unauth_client_witness :
    (⟨none⟩ : ProcState).megaClient = none ∧
    envLoginFail.varsDict = Except.ok ⟨"user", "pw"⟩ ∧
    envLoginFail.loginOk "user" "pw" = false ∧
    (_get_mega_client envLoginFail ⟨none⟩ =
      (Except.error MegaInitErr.loginFailed, ⟨some ⟨false⟩⟩,
        [Action.varsLoad, Action.loginAttempt]) ∧
    _get_mega_client envLoginFail ⟨some ⟨false⟩⟩ = (Except.ok ⟨false⟩, ⟨some ⟨false⟩⟩, [])) :=
  ⟨rfl, rfl, rfl,
    C3_failed_login_caches_unauth_client envLoginFail ⟨none⟩ ⟨"user", "pw"⟩ rfl rfl rfl⟩

/-- With an empty slot and a failing credential load, the folder block
can only resolve a folder when the payload has no folder field, in
which case the process state is untouched. -/
theorem folder_block_vars_error_resolved (env : Env) (proc p1 : ProcState) (data : Payload)
    (fo : Option MegaNode) (tr1 : List Action)
    (hslot : proc.megaClient = none) (hv : env.varsDict = Except.error ())
    (h : folder_block env proc data = (FolderOutcome.resolved fo, p1, tr1)) :
    p1 = proc := by
  unfold folder_block at h
  rcases hf : data.folder? with _ | f <;> rw [hf] at h
  · simp at h
    exact h.2.1.symm
  · rw [get_client_vars_error env proc hslot hv] at h
    simp at h

/-- With an empty slot and a failing credential load, the upload block
always catches the re-raised failure. -/
theorem upload_block_vars_error_caught (env : Env) (proc : ProcState) (path : String)
    (folder : Option MegaNode)
    (hslot : proc.megaClient = none) (hv : env.varsDict = Except.error ()) :
    (upload_block env proc path folder).1 = UploadOutcome.caught := by
  unfold upload_block
  rw [get_client_vars_error env proc hslot hv]

/-- C4 counterexample: with an empty slot and a failing credential
load, the workflow converts the failure into the return value 1
instead of re-raising it to its caller as the claim states. -/
theorem C4_counterexample_vars_failure_returns_one :
    (upload_file_by_url_to_mega envVarsFail ⟨none⟩ [] evA).result = Except.ok 1 :=
  rfl

/-- C4 amended: a credential-load failure is re-raised past
_get_mega_client, but every call site of _get_mega_client inside the
workflow sits in an exception handler that converts it into the return
value 1; the workflow itself therefore returns 1 on every such
invocation (or raises the unrelated transport exception of the
unguarded HTTP GET), and never propagates the credential failure. -/
theorem C4_vars_failure_caught_not_reraised (env : Env) (proc : ProcState)
    (hslot : proc.megaClient = none) (hv : env.varsDict = Except.error ()) :
    (_get_mega_client env proc).1 = Except.error MegaInitErr.varsFailed ∧
    ∀ fs ev, (upload_file_by_url_to_mega env proc fs ev).result = Except.ok 1 ∨
      (upload_file_by_url_to_mega env proc fs ev).result = Except.error Exc.transport := by
  constructor
  · rw [get_client_vars_error env proc hslot hv]
  · intro fs ev
    rcases hd : ev.data? with _ | od
    · left
      simp [upload_file_by_url_to_mega, hd]
    rcases od with _ | s
    · left
      simp [upload_file_by_url_to_mega, hd]
    have h2 := secondDataExtraction_some ev s hd
    rcases hj : env.decodeJson s with _ | data
    · left
      simp [upload_file_by_url_to_mega, hd, h2, hj]
    rcases hu : data.url? with _ | url
    · left
      simp [upload_file_by_url_to_mega, hd, h2, hj, hu]
    rcases hg : env.httpGet url with _ | resp
    · right
      simp [upload_file_by_url_to_mega, hd, h2, hj, hu, hg]
    by_cases hs : resp.status_code = 200
    · rcases hfb : folder_block env proc data with ⟨fo, p1, tr1⟩
      rcases fo with _ | folder
      · left
        simp [upload_file_by_url_to_mega, hd, h2, hj, hu, hg, hs, hfb]
      · have hp1 := folder_block_vars_error_resolved env proc p1 data folder tr1 hslot hv hfb
        have hslot1 : p1.megaClient = none := by
          rw [hp1]
          exact hslot
        rcases hub : upload_block env p1 (downloadStep fs env.tmpName resp.content).2 folder
          with ⟨uo, p2, tr2⟩
        have hc := upload_block_vars_error_caught env p1
          (downloadStep fs env.tmpName resp.content).2 folder hslot1 hv
        rw [hub] at hc
        simp at hc
        subst hc
        left
        simp [upload_file_by_url_to_mega, hd, h2, hj, hu, hg, hs, hfb, hub]
    · left
      simp [upload_file_by_url_to_mega, hd, h2, hj, hu, hg, hs]

/-- C4 amended witness at a concrete failing-credential environment. -/
theorem C4_vars_failure_caught_not_reraised_witness :
    (⟨none⟩ : ProcState).megaClient = none ∧
    envVarsFail.varsDict = Except.error () ∧
    (_get_mega_client envVarsFail ⟨none⟩).1 = Except.error MegaInitErr.varsFailed ∧
    ((upload_file_by_url_to_mega envVarsFail ⟨none⟩ [] evA).result = Except.ok 1 ∨
      (upload_file_by_url_to_mega envVarsFail ⟨none⟩ [] evA).result =
        Except.error Exc.transport) :=
  ⟨rfl, rfl, (C4_vars_failure_caught_not_reraised envVarsFail ⟨none⟩ rfl rfl).1,
    (C4_vars_failure_caught_not_reraised envVarsFail ⟨none⟩ rfl rfl).2 [] evA⟩

/-- Folder block under a cached client and non-raising API calls: the
path lookup runs first; an absent descriptor leads to create then find,
a present one to find directly; the resolved folder is the find result. -/
theorem folder_block_cached (env : Env) (proc : ProcState) (data : Payload) (f : String)
    (c : Mega) (r : Option String) (fo : Option MegaNode)
    (hc : proc.megaClient = some c) (hf : data.folder? = some f)
    (hfp : env.find_path_descriptor f = Except.ok r)
    (hcf : env.create_folder f = Except.ok ())
    (hfind : env.find f = Except.ok fo) :
    folder_block env proc data =
      (FolderOutcome.resolved fo, proc,
        match r with
        | none => [Action.findPath f, Action.createFolder f, Action.find f]
        | some _ => [Action.findPath f, Action.find f]) := by
  have hg := get_client_cached env proc c hc
  rcases r with _ | d <;> simp [folder_block, hf, hg, hfp, hcf, hfind]

/-- Upload block under a cached client and a successful upload call:
the destination is the resolved folder handle when one is present. -/
theorem upload_block_cached (env : Env) (proc : ProcState) (path : String)
    (fo : Option MegaNode) (c : Mega)
    (hc : proc.megaClient = some c)
    (hup : env.upload path (Option.map MegaNode.handle fo) = Except.ok ()) :
    upload_block env proc path fo =
      (UploadOutcome.sent, proc, [Action.upload path (Option.map MegaNode.handle fo)]) := by
  have hg := get_client_cached env proc c hc
  rcases fo with _ | node <;> simp only [Option.map] at hup ⊢ <;>
    simp [upload_block, hg, hup]

/-- Rename block under a cached client and non-raising API calls. -/
theorem rename_block_cached (env : Env) (proc : ProcState) (path name : String) (c : Mega)
    (ff : Option MegaNode)
    (hc : proc.megaClient = some c)
    (hff : env.find (basename path) = Except.ok ff)
    (hrn : env.rename ff name = Except.ok ()) :
    rename_block env proc path name =
      (Except.ok (), proc, [Action.find (basename path), Action.rename ff name]) := by
  have hg := get_client_cached env proc c hc
  simp [rename_block, hg, hff, hrn]

/-- C5: folder resolution follows the source policy: path lookup first;
if the descriptor is absent, create the folder then re-resolve it by
name; if present, resolve by name directly; the resolved entry is the
destination the upload targets. The whole call trace is computed. -/
theorem C5_folder_resolution_policy (env : Env) (proc : ProcState) (fs : Fs) (ev : Event)
    (s : String) (data : Payload) (url f : String) (c : Mega) (r : Option String)
    (fo ff : Option MegaNode) (B : String)
    (hd : ev.data? = some (some s)) (hj : env.decodeJson s = some data)
    (hu : data.url? = some url) (hf : data.folder? = some f)
    (hg : env.httpGet url = Except.ok ⟨200, B⟩)
    (hc : proc.megaClient = some c)
    (hfp : env.find_path_descriptor f = Except.ok r)
    (hcf : env.create_folder f = Except.ok ())
    (hfind : env.find f = Except.ok fo)
    (hup : env.upload env.tmpName (Option.map MegaNode.handle fo) = Except.ok ())
    (hff : env.find (basename env.tmpName) = Except.ok ff)
    (hrn : env.rename ff (basename (urlparse_path url)) = Except.ok ()) :
    (upload_file_by_url_to_mega env proc fs ev).trace =
      Action.httpGet url ::
        ((match r with
          | none => [Action.findPath f, Action.createFolder f, Action.find f]
          | some _ => [Action.findPath f, Action.find f]) ++
         [Action.upload env.tmpName (Option.map MegaNode.handle fo),
          Action.find (basename env.tmpName),
          Action.rename ff (basename (urlparse_path url))]) ∧
    (upload_file_by_url_to_mega env proc fs ev).result = Except.ok 0 := by
  have h2 := secondDataExtraction_some ev s hd
  have hfb := folder_block_cached env proc data f c r fo hc hf hfp hcf hfind
  have hub := upload_block_cached env proc env.tmpName fo c hc hup
  have hrb := rename_block_cached env proc env.tmpName (basename (urlparse_path url)) c ff
    hc hff hrn
  rcases r with _ | d <;>
    simp [upload_file_by_url_to_mega, hd, h2, hj, hu, hg, downloadStep, hfb, hub, hrb]

/-- C5 witness at a concrete environment whose path descriptor is
present, so the direct-resolution branch runs. -/
theorem C5_folder_resolution_policy_witness :
    evA.data? = some (some "B64DATA") ∧
    envA.decodeJson "B64DATA" = some payloadA ∧
    payloadA.url? = some urlA ∧
    payloadA.folder? = some "mtga-promo-cards" ∧
    envA.httpGet urlA = Except.ok ⟨200, "JPEGBYTES"⟩ ∧
    (⟨some ⟨true⟩⟩ : ProcState).megaClient = some ⟨true⟩ ∧
    envA.find_path_descriptor "mtga-promo-cards" = Except.ok (some "d0") ∧
    envA.create_folder "mtga-promo-cards" = Except.ok () ∧
    envA.find "mtga-promo-cards" = Except.ok (some ⟨"h1"⟩) ∧
    envA.upload envA.tmpName (Option.map MegaNode.handle (some ⟨"h1"⟩)) = Except.ok () ∧
    envA.find (basename envA.tmpName) = Except.ok (some ⟨"h1"⟩) ∧
    envA.rename (some ⟨"h1"⟩) (basename (urlparse_path urlA)) = Except.ok () ∧
    ((upload_file_by_url_to_mega envA ⟨some ⟨true⟩⟩ [] evA).trace =
      Action.httpGet urlA ::
        ([Action.findPath "mtga-promo-cards", Action.find "mtga-promo-cards"] ++
         [Action.upload envA.tmpName (Option.map MegaNode.handle (some ⟨"h1"⟩)),
          Action.find (basename envA.tmpName),
          Action.rename (some ⟨"h1"⟩) (basename (urlparse_path urlA))]) ∧
    (upload_file_by_url_to_mega envA ⟨some ⟨true⟩⟩ [] evA).result = Except.ok 0) :=
  ⟨rfl, rfl, rfl, rfl, rfl, rfl, rfl, rfl, rfl, rfl, rfl, rfl,
    C5_folder_resolution_policy envA ⟨some ⟨true⟩⟩ [] evA "B64DATA" payloadA urlA
      "mtga-promo-cards" ⟨true⟩ (some "d0") (some ⟨"h1"⟩) (some ⟨"h1"⟩) "JPEGBYTES"
      rfl rfl rfl rfl rfl rfl rfl rfl rfl rfl rfl rfl⟩

/-- C6: the entry passed to rename is the result of the name-based find
on the basename of the local temporary path, and the new name given to
rename is the basename of the path component of the payload url: the
trace ends with exactly that find and that rename. -/
theorem C6_rename_targets_and_new_name (env : Env) (proc : ProcState) (fs : Fs) (ev : Event)
    (s : String) (data : Payload) (url f : String) (c : Mega) (r : Option String)
    (fo ff : Option MegaNode) (B : String)
    (hd : ev.data? = some (some s)) (hj : env.decodeJson s = some data)
    (hu : data.url? = some url) (hf : data.folder? = some f)
    (hg : env.httpGet url = Except.ok ⟨200, B⟩)
    (hc : proc.megaClient = some c)
    (hfp : env.find_path_descriptor f = Except.ok r)
    (hcf : env.create_folder f = Except.ok ())
    (hfind : env.find f = Except.ok fo)
    (hup : env.upload env.tmpName (Option.map MegaNode.handle fo) = Except.ok ())
    (hff : env.find (basename env.tmpName) = Except.ok ff)
    (hrn : env.rename ff (basename (urlparse_path url)) = Except.ok ()) :
    ∃ pre, (upload_file_by_url_to_mega env proc fs ev).trace =
      pre ++ [Action.find (basename env.tmpName),
              Action.rename ff (basename (urlparse_path url))] := by
  have h2 := secondDataExtraction_some ev s hd
  have hfb := folder_block_cached env proc data f c r fo hc hf hfp hcf hfind
  have hub := upload_block_cached env proc env.tmpName fo c hc hup
  have hrb := rename_block_cached env proc env.tmpName (basename (urlparse_path url)) c ff
    hc hff hrn
  rcases r with _ | d
  · exact ⟨[Action.httpGet url, Action.findPath f, Action.createFolder f, Action.find f,
      Action.upload env.tmpName (Option.map MegaNode.handle fo)],
      by simp [upload_file_by_url_to_mega, hd, h2, hj, hu, hg, downloadStep, hfb, hub, hrb]⟩
  · exact ⟨[Action.httpGet url, Action.findPath f, Action.find f,
      Action.upload env.tmpName (Option.map MegaNode.handle fo)],
      by simp [upload_file_by_url_to_mega, hd, h2, hj, hu, hg, downloadStep, hfb, hub, hrb]⟩

/-- C6 witness at the concrete fully successful environment. -/
theorem C6_rename_targets_and_new_name_witness :
    evA.data? = some (some "B64DATA") ∧
    envA.decodeJson "B64DATA" = some payloadA ∧
    payloadA.url? = some urlA ∧
    payloadA.folder? = some "mtga-promo-cards" ∧
    envA.httpGet urlA = Except.ok ⟨200, "JPEGBYTES"⟩ ∧
    (⟨some ⟨true⟩⟩ : ProcState).megaClient = some ⟨true⟩ ∧
    envA.find_path_descriptor "mtga-promo-cards" = Except.ok (some "d0") ∧
    envA.create_folder "mtga-promo-cards" = Except.ok () ∧
    envA.find "mtga-promo-cards" = Except.ok (some ⟨"h1"⟩) ∧
    envA.upload envA.tmpName (Option.map MegaNode.handle (some ⟨"h1"⟩)) = Except.ok () ∧
    envA.find (basename envA.tmpName) = Except.ok (some ⟨"h1"⟩) ∧
    envA.rename (some ⟨"h1"⟩) (basename (urlparse_path urlA)) = Except.ok () ∧
    (∃ pre, (upload_file_by_url_to_mega envA ⟨some ⟨true⟩⟩ [] evA).trace =
      pre ++ [Action.find (basename envA.tmpName),
              Action.rename (some ⟨"h1"⟩) (basename (urlparse_path urlA))]) :=
  ⟨rfl, rfl, rfl, rfl, rfl, rfl, rfl, rfl, rfl, rfl, rfl, rfl,
    C6_rename_targets_and_new_name envA ⟨some ⟨true⟩⟩ [] evA "B64DATA" payloadA urlA
      "mtga-promo-cards" ⟨true⟩ (some "d0") (some ⟨"h1"⟩) (some ⟨"h1"⟩) "JPEGBYTES"
      rfl rfl rfl rfl rfl rfl rfl rfl rfl rfl rfl rfl⟩

/-- C10: when the payload names a folder but the name-based find of it
returns nothing, even after a successful create_folder, the workflow
emits no error report, uploads the file to the account root (upload
destination none), and returns 0 when the remaining calls succeed. -/
theorem C10_falsy_folder_uploads_to_root (env : Env) (proc : ProcState) (fs : Fs) (ev : Event)
    (s : String) (data : Payload) (url f : String) (c : Mega) (ff : Option MegaNode)
    (B : String)
    (hd : ev.data? = some (some s)) (hj : env.decodeJson s = some data)
    (hu : data.url? = some url) (hf : data.folder? = some f)
    (hg : env.httpGet url = Except.ok ⟨200, B⟩)
    (hc : proc.megaClient = some c)
    (hfp : env.find_path_descriptor f = Except.ok none)
    (hcf : env.create_folder f = Except.ok ())
    (hfind : env.find f = Except.ok none)
    (hup : env.upload env.tmpName none = Except.ok ())
    (hff : env.find (basename env.tmpName) = Except.ok ff)
    (hrn : env.rename ff (basename (urlparse_path url)) = Except.ok ()) :
    (upload_file_by_url_to_mega env proc fs ev).result = Except.ok 0 ∧
    reportCount (upload_file_by_url_to_mega env proc fs ev).trace = 0 ∧
    Action.upload env.tmpName none ∈ (upload_file_by_url_to_mega env proc fs ev).trace := by
  have h2 := secondDataExtraction_some ev s hd
  have hfb := folder_block_cached env proc data f c none none hc hf hfp hcf hfind
  have hub := upload_block_cached env proc env.tmpName none c hc hup
  have hrb := rename_block_cached env proc env.tmpName (basename (urlparse_path url)) c ff
    hc hff hrn
  refine ⟨?_, ?_, ?_⟩ <;>
    simp [upload_file_by_url_to_mega, hd, h2, hj, hu, hg, downloadStep, hfb, hub, hrb,
      reportCount, List.countP, List.countP.go, isReportAction]

/-- C10 witness at a concrete environment where the folder find is
falsy even after creation. -/
theorem C10_falsy_folder_uploads_to_root_witness :
    evA.data? = some (some "B64DATA") ∧
    envFolderFalsy.decodeJson "B64DATA" = some payloadA ∧
    payloadA.url? = some urlA ∧
    payloadA.folder? = some "mtga-promo-cards" ∧
    envFolderFalsy.httpGet urlA = Except.ok ⟨200, "JPEGBYTES"⟩ ∧
    (⟨some ⟨true⟩⟩ : ProcState).megaClient = some ⟨true⟩ ∧
    envFolderFalsy.find_path_descriptor "mtga-promo-cards" = Except.ok none ∧
    envFolderFalsy.create_folder "mtga-promo-cards" = Except.ok () ∧
    envFolderFalsy.find "mtga-promo-cards" = Except.ok none ∧
    envFolderFalsy.upload envFolderFalsy.tmpName none = Except.ok () ∧
    envFolderFalsy.find (basename envFolderFalsy.tmpName) = Except.ok (some ⟨"hf"⟩) ∧
    envFolderFalsy.rename (some ⟨"hf"⟩) (basename (urlparse_path urlA)) = Except.ok () ∧
    ((upload_file_by_url_to_mega envFolderFalsy ⟨some ⟨true⟩⟩ [] evA).result = Except.ok 0 ∧
      reportCount (upload_file_by_url_to_mega envFolderFalsy ⟨some ⟨true⟩⟩ [] evA).trace = 0 ∧
      Action.upload envFolderFalsy.tmpName none ∈
        (upload_file_by_url_to_mega envFolderFalsy ⟨some ⟨true⟩⟩ [] evA).trace) :=
  ⟨rfl, rfl, rfl, rfl, rfl, rfl, rfl, rfl, rfl, rfl, by rfl, rfl,
    C10_falsy_folder_uploads_to_root envFolderFalsy ⟨some ⟨true⟩⟩ [] evA "B64DATA" payloadA
      urlA "mtga-promo-cards" ⟨true⟩ (some ⟨"hf"⟩) "JPEGBYTES"
      rfl rfl rfl rfl rfl rfl rfl rfl rfl rfl (by rfl) rfl⟩

end SaveToMega
